import Mathlib

/-!
# Verification of the statbook player-summary aggregator

A shallow embedding, in Lean 4, of the parts of the `statbook` Rust crate
that its specification makes claims about:

* `src/utils.rs` — the slug normalizer `to_dash_case`;
* `src/models/result_types.rs` — `PlayerStats`, `PlayerSummaryResult`,
  `FetchStrategy`, `NewsQuery`;
* `src/models/player.rs` — `Article`;
* `src/error.rs` — the `StatbookError` taxonomy;
* `src/models/player_parser.rs` — the decoded upstream stats payload;
* `src/providers/stats_provider.rs` — the decoding half of
  `MySportsStatsProvider::fetch_player_stats` (everything after the HTTP
  response has been received and its body JSON-decoded);
* `src/api/players.rs` — `get_player_summary` and
  `get_player_summary_concurrent`;
* `src/config.rs` — `StatbookConfig`, its validation, and the builder.

Modelling conventions: Rust `Result<T, StatbookError>` becomes
`Except StatbookError T`; async provider trait objects become plain
functions (a provider call is modelled by applying the function); strings
are Lean `String`s, with Rust's Unicode-table `char::is_whitespace` and
`str::to_lowercase` modelled by Lean's `Char.isWhitespace` and
`Char.toLower` (the ASCII subset of the same tables); `u32`/`u64` become
`Nat` (no arithmetic is performed on them, so no overflow is observable).
-/

namespace Statbook

/-! ## Slug normalizer (src/utils.rs)

Rust:
```
pub(crate) fn to_dash_case(s: &str) -> String {
    s.split_whitespace()
        .collect::<Vec<&str>>()
        .join("-")
        .to_lowercase()
}
```
`split_whitespace` splits on maximal runs of whitespace and yields no empty
chunks; it is modelled as `splitOnP isWhitespace` followed by discarding
empty chunks. `join("-")` is modelled by `joinDash`, and `to_lowercase` by
mapping `Char.toLower`. -/

/-- The chunks of `s` between whitespace runs, empty chunks discarded:
Rust `str::split_whitespace` collected to a list. -/
def splitWhitespaceChars (s : List Char) : List (List Char) :=
  (s.splitOnP Char.isWhitespace).filter (fun w => !w.isEmpty)

/-- Rust `Vec<&str>::join("-")` on character lists. -/
def joinDash : List (List Char) → List Char
  | [] => []
  | [w] => w
  | w :: ws => w ++ '-' :: joinDash ws

/-- `to_dash_case` on the character-list representation of the string. -/
def to_dash_case_chars (s : List Char) : List Char :=
  (joinDash (splitWhitespaceChars s)).map Char.toLower

/-- `utils::to_dash_case`: split on whitespace, join with dashes, lower-case. -/
def to_dash_case (s : String) : String :=
  ⟨to_dash_case_chars s.data⟩

/-! ## Domain model (src/models) -/

/-- `result_types::PlayerStats`: the flat, always-valid stats record. -/
structure PlayerStats where
  first_name : String
  last_name : String
  primary_position : String
  jersey_number : Nat
  current_team : String
  injury : String
  rookie : Bool
  games_played : Nat
deriving DecidableEq, Repr

/-- `player::Article`: one news article. -/
structure Article where
  title : String
  description : String
  published_at : String
  content : String
deriving DecidableEq, Repr

/-- `error::StatbookError`: the error taxonomy. The `reqwest`/`serde_json`
causes wrapped by `Network` and `JsonParse` are opaque to this development
and carried as strings. -/
inductive StatbookError where
  | MissingApiKey (key : String)
  | PlayerNotFound (name : String)
  | Network (cause : String)
  | JsonParse (cause : String)
  | StatsApi (status : Nat) (message : String)
  | NewsApi (status : Nat) (message : String)
  | Config (message : String)
  | Validation (message : String)
deriving DecidableEq, Repr

/-- `result_types::NewsQuery`. -/
structure NewsQuery where
  player_name : String
  from_date : String
  page_size : Nat
  sort_by : String
deriving DecidableEq, Repr

/-- `NewsQuery::for_player`: default query, no date filter, page size 5. -/
def NewsQuery.for_player (name : String) : NewsQuery :=
  { player_name := name
    from_date := ""
    page_size := 5
    sort_by := "publishedAt" }

/-- `result_types::FetchStrategy`. -/
inductive FetchStrategy where
  | StatsOnly
  | NewsOnly
  | Both (fail_on_news_error : Bool)
deriving DecidableEq, Repr

instance {ε α : Type} [DecidableEq ε] [DecidableEq α] : DecidableEq (Except ε α) := fun
  | .ok a, .ok b =>
    if h : a = b then .isTrue (by rw [h]) else .isFalse (by simp [h])
  | .error a, .error b =>
    if h : a = b then .isTrue (by rw [h]) else .isFalse (by simp [h])
  | .ok _, .error _ => .isFalse (by simp)
  | .error _, .ok _ => .isFalse (by simp)

/-- `result_types::PlayerSummaryResult`: stats always present, the news
outcome carried as data (`Result<Vec<Article>, StatbookError>`). -/
structure PlayerSummaryResult where
  player_stats : PlayerStats
  news_result : Except StatbookError (List Article)
deriving DecidableEq, Repr

/-! ## The client and the orchestrator (src/client.rs, src/api/players.rs)

`StatbookClient` holds one `StatsProvider` and one `NewsProvider` trait
object; each is modelled as the function its single trait method denotes. -/

/-- `client::StatbookClient`, with each provider as its fetch function. -/
structure StatbookClient where
  stats_provider : String → Except StatbookError PlayerStats
  news_provider : NewsQuery → Except StatbookError (List Article)

/-- `api::players::get_player_summary_concurrent`: dash the name again,
issue both fetches, then merge per the `fail_on_news_error` policy. -/
def get_player_summary_concurrent (client : StatbookClient) (name : String)
    (fail_on_news_error : Bool) : Except StatbookError PlayerSummaryResult :=
  let dash_name := to_dash_case name
  let query := NewsQuery.for_player dash_name
  let stats_result := client.stats_provider dash_name
  let news_result := client.news_provider query
  match stats_result with
  | .error e => .error e
  | .ok stats =>
    if fail_on_news_error then
      match news_result with
      | .error e => .error e
      | .ok news => .ok { player_stats := stats, news_result := .ok news }
    else
      .ok { player_stats := stats, news_result := news_result }

/-- `api::players::get_player_summary`: dispatch on the strategy. -/
def get_player_summary (client : StatbookClient) (name : String)
    (strategy : FetchStrategy) : Except StatbookError PlayerSummaryResult :=
  let dash_name := to_dash_case name
  match strategy with
  | .StatsOnly =>
    match client.stats_provider dash_name with
    | .error e => .error e
    | .ok stats => .ok { player_stats := stats, news_result := .ok [] }
  | .NewsOnly =>
    let query := NewsQuery.for_player dash_name
    match client.news_provider query with
    | .error e => .error e
    | .ok news =>
      .ok { player_stats :=
              { first_name := ""
                last_name := ""
                primary_position := ""
                jersey_number := 0
                current_team := ""
                injury := ""
                rookie := false
                games_played := 0 }
            news_result := .ok news }
  | .Both fail_on_news_error =>
    get_player_summary_concurrent client dash_name fail_on_news_error

/-! ## Decoded upstream stats payload (src/models/player_parser.rs)

Every leaf field in the upstream schema is independently optional
(`Option<...>` with a serde `default`), so each is an `Option` here.
The eleven per-category statistics sub-objects (`passing`, `rushing`, ...)
hold `f64` leaves and are never read by `fetch_player_stats`; they are
left out of the embedding. -/

/-- `player_parser::TeamInfo`. -/
structure TeamInfo where
  id : Option Nat
  abbreviation : Option String
deriving DecidableEq, Repr

/-- `player_parser::PlayerInfo`: the nested upstream player object, every
leaf optional. -/
structure PlayerInfo where
  id : Option Nat
  first_name : Option String
  last_name : Option String
  primary_position : Option String
  jersey_number : Option Nat
  current_team : Option TeamInfo
  roster_status : Option String
  injury : Option String
  height : Option String
  weight : Option Nat
  birth_date : Option String
  age : Option Nat
  birth_city : Option String
  birth_country : Option String
  rookie : Option Bool
  high_school : Option String
  college : Option String
  handedness : Option String
  official_image_src : Option String
deriving DecidableEq, Repr

/-- `player_parser::Statistics` (the `gamesPlayed` leaf; the per-category
sub-objects are unread by the decoder and omitted). -/
structure Statistics where
  games_played : Option Nat
deriving DecidableEq, Repr

/-- `player_parser::Player`: one entry of the `playerStatsTotals` array. -/
structure Player where
  player_info : PlayerInfo
  team_info : TeamInfo
  statistics : Statistics
deriving DecidableEq, Repr

/-- `player_parser::PlayerResponse`: the decoded upstream payload. -/
structure PlayerResponse where
  players : List Player
deriving DecidableEq, Repr

/-- `PlayerInfo` with every optional leaf absent (`serde` default). -/
def PlayerInfo.empty : PlayerInfo :=
  { id := none, first_name := none, last_name := none,
    primary_position := none, jersey_number := none, current_team := none,
    roster_status := none, injury := none, height := none, weight := none,
    birth_date := none, age := none, birth_city := none,
    birth_country := none, rookie := none, high_school := none,
    college := none, handedness := none, official_image_src := none }

/-- The zero-valued `PlayerStats` record: every field at its default. -/
def PlayerStats.zero : PlayerStats :=
  { first_name := ""
    last_name := ""
    primary_position := ""
    jersey_number := 0
    current_team := ""
    injury := ""
    rookie := false
    games_played := 0 }

/-- The decoding half of `MySportsStatsProvider::fetch_player_stats`
(src/providers/stats_provider.rs, after the HTTP body has been
JSON-decoded into a `PlayerResponse`): take the first entry of the player
list, mapping an empty list to `PlayerNotFound`, and substitute the zero
value for every absent leaf. -/
def fetch_player_stats_decode (name : String) (player_data : PlayerResponse) :
    Except StatbookError PlayerStats :=
  match player_data.players.head? with
  | none => .error (.PlayerNotFound name)
  | some player =>
    let player_info := player.player_info
    .ok
      { first_name := player_info.first_name.getD ""
        last_name := player_info.last_name.getD ""
        primary_position := player_info.primary_position.getD ""
        jersey_number := player_info.jersey_number.getD 0
        current_team :=
          (player_info.current_team.bind (fun team => team.abbreviation)).getD ""
        injury := player_info.injury.getD ""
        rookie := player_info.rookie.getD false
        games_played := player.statistics.games_played.getD 0 }

/-! ## Configuration (src/config.rs, src/config/news_config.rs) -/

/-- `config::STATS_BASE_URL`. -/
def STATS_BASE_URL : String := "https://api.mysportsfeeds.com/v2.1"

/-- `config::NEWS_BASE_URL`. -/
def NEWS_BASE_URL : String := "https://newsapi.org/v2"

/-- `news_config::SortBy`. -/
inductive SortBy where
  | PublishedAt
  | Relevancy
  | Popularity
deriving DecidableEq, Repr

/-- `news_config::NewsConfig`. -/
structure NewsConfig where
  max_articles : Nat
  days_back : Nat
  sort_by : SortBy
  language : String
deriving DecidableEq, Repr

/-- `NewsConfig::default`. -/
def NewsConfig.default : NewsConfig :=
  { max_articles := 5, days_back := 7, sort_by := .PublishedAt, language := "en" }

/-- `config::StatbookConfig`. -/
structure StatbookConfig where
  stats_api_key : String
  news_api_key : String
  stats_base_url : String
  news_base_url : String
  news_config : NewsConfig
deriving DecidableEq, Repr

/-- `StatbookConfig::new`: plain record construction. It fills in the
default base URLs and news settings, performs no validation, and cannot
fail. -/
def StatbookConfig.new (stats_api_key news_api_key : String) : StatbookConfig :=
  { stats_api_key := stats_api_key
    news_api_key := news_api_key
    stats_base_url := STATS_BASE_URL
    news_base_url := NEWS_BASE_URL
    news_config := NewsConfig.default }

/-- `StatbookConfig::validate_api_keys`: both keys must be non-empty;
key format is deferred to the remote APIs. -/
def StatbookConfig.validate_api_keys (c : StatbookConfig) :
    Except StatbookError Unit :=
  if c.stats_api_key.isEmpty then
    .error (.Validation "Stats API key cannot be empty")
  else if c.news_api_key.isEmpty then
    .error (.Validation "News API key cannot be empty")
  else
    .ok ()

/-- Rust `str::starts_with(&str)`: the string begins with the given
prefix, character for character. -/
def starts_with (s pre : String) : Bool :=
  pre.data.isPrefixOf s.data

/-- `StatbookConfig::validate_urls`: both base URLs must start with
`"http"`. -/
def StatbookConfig.validate_urls (c : StatbookConfig) :
    Except StatbookError Unit :=
  if !starts_with c.stats_base_url "http" then
    .error (.Validation "Stats base URL must be a valid HTTP URL")
  else if !starts_with c.news_base_url "http" then
    .error (.Validation "News base URL must be a valid HTTP URL")
  else
    .ok ()

/-- `StatbookConfig::validate`: keys first, then URLs. -/
def StatbookConfig.validate (c : StatbookConfig) : Except StatbookError Unit :=
  match c.validate_api_keys with
  | .error e => .error e
  | .ok _ =>
    match c.validate_urls with
    | .error e => .error e
    | .ok _ => .ok ()

/-- `StatbookConfig::from_env`, with the process environment passed in as
a lookup function: missing variables map to `MissingApiKey`, then the
assembled configuration is validated. -/
def StatbookConfig.from_env (env : String → Option String) :
    Except StatbookError StatbookConfig :=
  match env "STATS_API_KEY" with
  | none => .error (.MissingApiKey "STATS_API_KEY")
  | some stats_api_key =>
    match env "NEWS_API_KEY" with
    | none => .error (.MissingApiKey "NEWS_API_KEY")
    | some news_api_key =>
      let config : StatbookConfig :=
        { stats_api_key := stats_api_key
          news_api_key := news_api_key
          stats_base_url := STATS_BASE_URL
          news_base_url := NEWS_BASE_URL
          news_config := NewsConfig.default }
      match config.validate with
      | .error e => .error e
      | .ok _ => .ok config

/-- `config::StatbookConfigBuilder`: every field optional until `build`. -/
structure StatbookConfigBuilder where
  stats_api_key : Option String := none
  news_api_key : Option String := none
  stats_base_url : Option String := none
  news_base_url : Option String := none
  news_config : Option NewsConfig := none
deriving DecidableEq, Repr

/-- `StatbookConfigBuilder::build`: both keys required, URLs and news
settings defaulted, then the assembled configuration is validated. -/
def StatbookConfigBuilder.build (b : StatbookConfigBuilder) :
    Except StatbookError StatbookConfig :=
  match b.stats_api_key with
  | none => .error (.MissingApiKey "stats_api_key")
  | some stats_api_key =>
    match b.news_api_key with
    | none => .error (.MissingApiKey "news_api_key")
    | some news_api_key =>
      let config : StatbookConfig :=
        { stats_api_key := stats_api_key
          news_api_key := news_api_key
          stats_base_url := b.stats_base_url.getD STATS_BASE_URL
          news_base_url := b.news_base_url.getD NEWS_BASE_URL
          news_config := b.news_config.getD NewsConfig.default }
      match config.validate with
      | .error e => .error e
      | .ok _ => .ok config

/-- The whitespace-separated words of `s`, each lower-cased: the data the
slug normalizer keeps. Two strings that differ only in letter case and in
the whitespace between the same words have equal `words_lower`. -/
def words_lower (s : String) : List (List Char) :=
  (splitWhitespaceChars s.data).map (fun w => w.map Char.toLower)

/-- Concrete stats record used to exercise the theorems: the mock data
the repository's own tests use for `"josh-allen"`. -/
def joshStats : PlayerStats :=
  { first_name := "Josh"
    last_name := "Allen"
    primary_position := "QB"
    jersey_number := 17
    current_team := "BUF"
    injury := ""
    rookie := false
    games_played := 17 }

/-- A concrete article used to exercise the theorems. -/
def sampleArticle : Article :=
  { title := "Josh Allen leads comeback"
    description := "Late drive seals the win"
    published_at := "2024-01-01T00:00:00Z"
    content := "..." }

/-! ## Character-level lemmas

`Char.toLower` only moves the basic-latin uppercase range down by 32, so
it is idempotent and preserves (non-)whitespace. -/

theorem toNat_ofNat_valid {n : Nat} (h : n < 55296) : (Char.ofNat n).toNat = n := by
  rw [Char.ofNat, dif_pos (Or.inl h)]
  rfl

theorem toLower_eq (c : Char) :
    c.toLower = if 65 ≤ c.toNat ∧ c.toNat ≤ 90 then Char.ofNat (c.toNat + 32) else c := rfl

theorem char_toNat_inj {a b : Char} (h : a.toNat = b.toNat) : a = b := by
  apply Char.eq_of_val_eq
  apply UInt32.eq_of_toBitVec_eq
  exact BitVec.eq_of_toNat_eq h

theorem isWhitespace_iff (c : Char) :
    c.isWhitespace = true ↔
      c.toNat = 32 ∨ c.toNat = 9 ∨ c.toNat = 13 ∨ c.toNat = 10 := by
  unfold Char.isWhitespace
  simp only [Bool.or_eq_true, decide_eq_true_eq]
  constructor
  · rintro (((h | h) | h) | h) <;> subst h <;> simp [Char.toNat]
  · rintro (h | h | h | h) <;>
      [exact Or.inl (Or.inl (Or.inl (char_toNat_inj (by rw [h]; rfl))));
       exact Or.inl (Or.inl (Or.inr (char_toNat_inj (by rw [h]; rfl))));
       exact Or.inl (Or.inr (char_toNat_inj (by rw [h]; rfl)));
       exact Or.inr (char_toNat_inj (by rw [h]; rfl))]

theorem toNat_toLower_of_upper {c : Char} (h : 65 ≤ c.toNat ∧ c.toNat ≤ 90) :
    c.toLower.toNat = c.toNat + 32 := by
  rw [toLower_eq, if_pos h, toNat_ofNat_valid (by omega)]

theorem toLower_of_not_upper {c : Char} (h : ¬(65 ≤ c.toNat ∧ c.toNat ≤ 90)) :
    c.toLower = c := by
  rw [toLower_eq, if_neg h]

theorem toLower_toLower (c : Char) : c.toLower.toLower = c.toLower := by
  by_cases h : 65 ≤ c.toNat ∧ c.toNat ≤ 90
  · have h2 := toNat_toLower_of_upper h
    apply toLower_of_not_upper
    omega
  · rw [toLower_of_not_upper h, toLower_of_not_upper h]

theorem isWhitespace_toLower (c : Char) :
    c.toLower.isWhitespace = c.isWhitespace := by
  by_cases h : 65 ≤ c.toNat ∧ c.toNat ≤ 90
  · have h2 := toNat_toLower_of_upper h
    have hl : c.toLower.isWhitespace = false := by
      rw [← Bool.not_eq_true, isWhitespace_iff]
      omega
    have hr : c.isWhitespace = false := by
      rw [← Bool.not_eq_true, isWhitespace_iff]
      omega
    rw [hl, hr]
  · rw [toLower_of_not_upper h]

/-! ## Splitting and joining lemmas -/

/-- Every element of every chunk produced by `splitOnP p` fails `p`:
the separators are removed, and chunk elements come from between them. -/
theorem mem_of_mem_splitOnP {α : Type} (p : α → Bool) (s : List α) :
    ∀ w ∈ s.splitOnP p, ∀ c ∈ w, p c = false := by
  induction s with
  | nil =>
    intro w hw
    rw [List.splitOnP_nil] at hw
    simp only [List.mem_singleton] at hw
    subst hw
    simp
  | cons a t ih =>
    intro w hw c hc
    rw [List.splitOnP_cons] at hw
    by_cases h : p a = true
    · rw [if_pos h] at hw
      rcases List.mem_cons.mp hw with h1 | h1
      · subst h1; simp at hc
      · exact ih w h1 c hc
    · rw [if_neg h] at hw
      obtain ⟨w0, ws, hsp⟩ : ∃ w0 ws, t.splitOnP p = w0 :: ws := by
        cases hsp : t.splitOnP p with
        | nil => exact absurd hsp (List.splitOnP_ne_nil p t)
        | cons w0 ws => exact ⟨w0, ws, rfl⟩
      rw [hsp] at hw
      simp only [List.modifyHead] at hw
      rcases List.mem_cons.mp hw with h1 | h1
      · subst h1
        rcases List.mem_cons.mp hc with h2 | h2
        · subst h2; simpa using h
        · exact ih w0 (by rw [hsp]; exact List.mem_cons_self _ _) c h2
      · exact ih w (by rw [hsp]; exact List.mem_cons_of_mem _ h1) c hc

/-- Every character of `joinDash ws` is a dash or comes from a chunk. -/
theorem mem_joinDash (ws : List (List Char)) (c : Char) (h : c ∈ joinDash ws) :
    c = '-' ∨ ∃ w ∈ ws, c ∈ w := by
  induction ws with
  | nil => simp [joinDash] at h
  | cons w ws ih =>
    cases ws with
    | nil =>
      refine Or.inr ⟨w, List.mem_singleton_self w, ?_⟩
      simpa [joinDash] using h
    | cons w2 ws2 =>
      have hj : joinDash (w :: w2 :: ws2) = w ++ '-' :: joinDash (w2 :: ws2) := rfl
      rw [hj] at h
      rcases List.mem_append.mp h with h1 | h1
      · exact Or.inr ⟨w, List.mem_cons_self _ _, h1⟩
      · rcases List.mem_cons.mp h1 with h2 | h2
        · exact Or.inl h2
        · rcases ih h2 with h3 | ⟨w3, hw3, hc3⟩
          · exact Or.inl h3
          · exact Or.inr ⟨w3, List.mem_cons_of_mem _ hw3, hc3⟩

/-- Lower-casing commutes with joining on dashes: the dash is already
lower case. -/
theorem map_toLower_joinDash (ws : List (List Char)) :
    (joinDash ws).map Char.toLower
      = joinDash (ws.map (fun w => w.map Char.toLower)) := by
  induction ws with
  | nil => rfl
  | cons w ws ih =>
    cases ws with
    | nil => rfl
    | cons w2 ws2 =>
      show (w ++ '-' :: joinDash (w2 :: ws2)).map Char.toLower
        = (w.map Char.toLower)
            ++ '-' :: joinDash ((w2 :: ws2).map (fun v => v.map Char.toLower))
      rw [List.map_append, List.map_cons, ih]
      have hdash : Char.toLower '-' = '-' := by decide
      rw [hdash]

theorem splitWhitespaceChars_no_ws (s : List Char) :
    ∀ w ∈ splitWhitespaceChars s, ∀ c ∈ w, c.isWhitespace = false := by
  intro w hw c hc
  have hw2 : w ∈ s.splitOnP Char.isWhitespace := List.mem_of_mem_filter hw
  exact mem_of_mem_splitOnP Char.isWhitespace s w hw2 c hc

/-- The normalizer's output has no whitespace left in it. -/
theorem to_dash_case_chars_no_ws (s : List Char) :
    ∀ c ∈ to_dash_case_chars s, c.isWhitespace = false := by
  intro c hc
  rcases List.mem_map.mp hc with ⟨d, hd, rfl⟩
  rw [isWhitespace_toLower]
  rcases mem_joinDash _ _ hd with h | ⟨w, hw, hcw⟩
  · subst h; decide
  · exact splitWhitespaceChars_no_ws s w hw d hcw

theorem map_toLower_toLower (l : List Char) :
    (l.map Char.toLower).map Char.toLower = l.map Char.toLower := by
  rw [List.map_map]
  congr 1
  funext c
  exact toLower_toLower c

/-- Idempotence at the character-list level: the output has no whitespace,
so it re-splits to itself, and lower-casing is idempotent. -/
theorem to_dash_case_chars_idem (s : List Char) :
    to_dash_case_chars (to_dash_case_chars s) = to_dash_case_chars s := by
  have hno := to_dash_case_chars_no_ws s
  have hsp : (to_dash_case_chars s).splitOnP Char.isWhitespace
      = [to_dash_case_chars s] :=
    List.splitOnP_eq_single _ _ (fun x hx => by simp [hno x hx])
  by_cases hr : to_dash_case_chars s = []
  · rw [hr]; rfl
  · have hlhs : to_dash_case_chars (to_dash_case_chars s)
        = (joinDash (((to_dash_case_chars s).splitOnP Char.isWhitespace).filter
            (fun w => !w.isEmpty))).map Char.toLower := rfl
    rw [hlhs, hsp]
    have hfil : [to_dash_case_chars s].filter (fun w => !w.isEmpty)
        = [to_dash_case_chars s] := by
      have : (to_dash_case_chars s).isEmpty = false := by
        simp [List.isEmpty_iff, hr]
      simp [List.filter, this]
    rw [hfil]
    have hj : joinDash [to_dash_case_chars s] = to_dash_case_chars s := rfl
    rw [hj]
    exact map_toLower_toLower (joinDash (splitWhitespaceChars s))

/-- The slug is the dash-join of the lower-cased words. -/
theorem to_dash_case_data (s : String) :
    (to_dash_case s).data = joinDash (words_lower s) := by
  show (joinDash (splitWhitespaceChars s.data)).map Char.toLower = _
  rw [map_toLower_joinDash]
  rfl

/-- Idempotence of the normalizer, at the `String` level. -/
theorem to_dash_case_idem (s : String) :
    to_dash_case (to_dash_case s) = to_dash_case s := by
  show String.mk (to_dash_case_chars (to_dash_case_chars s.data)) = _
  exact congrArg String.mk (to_dash_case_chars_idem s.data)

/-- Strings with the same lower-cased word sequence get the same slug. -/
theorem to_dash_case_congr (x y : String) (h : words_lower x = words_lower y) :
    to_dash_case x = to_dash_case y := by
  have hx := to_dash_case_data x
  have hy := to_dash_case_data y
  have hd : (to_dash_case x).data = (to_dash_case y).data := by
    rw [hx, hy, h]
  cases hex : to_dash_case x with
  | mk dx =>
    cases hey : to_dash_case y with
    | mk dy =>
      rw [hex, hey] at hd
      simp only [String.data] at hd
      rw [hd]

/-! ## Claim theorems -/

/-- C7: the slug normalizer is idempotent — `normalize (normalize x) =
normalize x` for every string — and any two strings whose
whitespace-separated words agree up to letter case (i.e. with equal
`words_lower`) normalize to the same dash-separated lower-case slug; in
particular `"Josh Allen"` and `"  JOSH   allen"` both normalize to
`"josh-allen"`. -/
theorem to_dash_case_idem_and_invariant :
    (∀ x : String, to_dash_case (to_dash_case x) = to_dash_case x)
  ∧ (∀ x y : String, words_lower x = words_lower y →
      to_dash_case x = to_dash_case y)
  ∧ to_dash_case "Josh Allen" = "josh-allen"
  ∧ to_dash_case "  JOSH   allen" = "josh-allen" := by
  refine ⟨to_dash_case_idem, to_dash_case_congr, by decide, by decide⟩

/-- C7 witness: the invariance half applied at the spec's example pair. -/
theorem to_dash_case_idem_and_invariant_witness :
    words_lower "Josh Allen" = words_lower "  JOSH   allen"
  ∧ to_dash_case "Josh Allen" = to_dash_case "  JOSH   allen" :=
  ⟨by decide, to_dash_case_idem_and_invariant.2.1 _ _ (by decide)⟩

/-- C1: under `Both { fail_on_news_error := false }`, a stats success
together with a news error yields an overall success whose `player_stats`
is the stats value and whose `news_result` carries the news error as
data. -/
theorem both_nonstrict_news_error_is_data
    (sp : String → Except StatbookError PlayerStats)
    (np : NewsQuery → Except StatbookError (List Article))
    (name : String) (stats : PlayerStats) (e : StatbookError)
    (hs : sp (to_dash_case name) = .ok stats)
    (hn : np (NewsQuery.for_player (to_dash_case name)) = .error e) :
    get_player_summary ⟨sp, np⟩ name (.Both false)
      = .ok { player_stats := stats, news_result := .error e } := by
  simp [get_player_summary, get_player_summary_concurrent,
    to_dash_case_idem, hs, hn]

/-- C1 witness: concrete providers where stats succeed and news fails. -/
theorem both_nonstrict_news_error_is_data_witness :
    get_player_summary
      ⟨fun _ => .ok joshStats,
       fun _ => .error (.NewsApi 500 "news service down")⟩
      "Josh Allen" (.Both false)
      = .ok { player_stats := joshStats
              news_result := .error (.NewsApi 500 "news service down") } :=
  both_nonstrict_news_error_is_data _ _ "Josh Allen" _ _ rfl rfl

/-- C2: under `Both { fail_on_news_error := true }`, a news error makes
the whole call fail with that news error, even though the stats provider
succeeded. -/
theorem both_strict_news_error_fails
    (sp : String → Except StatbookError PlayerStats)
    (np : NewsQuery → Except StatbookError (List Article))
    (name : String) (stats : PlayerStats) (e : StatbookError)
    (hs : sp (to_dash_case name) = .ok stats)
    (hn : np (NewsQuery.for_player (to_dash_case name)) = .error e) :
    get_player_summary ⟨sp, np⟩ name (.Both true) = .error e := by
  simp [get_player_summary, get_player_summary_concurrent,
    to_dash_case_idem, hs, hn]

/-- C2 witness: concrete providers where stats succeed and news fails. -/
theorem both_strict_news_error_fails_witness :
    get_player_summary
      ⟨fun _ => .ok joshStats,
       fun _ => .error (.NewsApi 429 "rate limited")⟩
      "Josh Allen" (.Both true)
      = .error (.NewsApi 429 "rate limited") :=
  both_strict_news_error_fails _ _ "Josh Allen" _ _ rfl rfl

/-- C3: under `Both`, with either value of `fail_on_news_error`, a stats
error makes the whole call fail with that stats error, whatever the news
provider returns. -/
theorem both_stats_error_fails
    (sp : String → Except StatbookError PlayerStats)
    (np : NewsQuery → Except StatbookError (List Article))
    (name : String) (e : StatbookError) (fail_on_news_error : Bool)
    (hs : sp (to_dash_case name) = .error e) :
    get_player_summary ⟨sp, np⟩ name (.Both fail_on_news_error)
      = .error e := by
  simp only [get_player_summary, get_player_summary_concurrent,
    to_dash_case_idem, hs]

/-- C3 witness: a failing stats provider with a succeeding news provider,
under both policies. -/
theorem both_stats_error_fails_witness :
    (get_player_summary
      ⟨fun n => .error (.PlayerNotFound n), fun _ => .ok []⟩
      "Josh Allen" (.Both false)
      = .error (.PlayerNotFound "josh-allen"))
  ∧ (get_player_summary
      ⟨fun n => .error (.PlayerNotFound n), fun _ => .ok []⟩
      "Josh Allen" (.Both true)
      = .error (.PlayerNotFound "josh-allen")) :=
  ⟨both_stats_error_fails _ _ "Josh Allen" _ false rfl,
   both_stats_error_fails _ _ "Josh Allen" _ true rfl⟩

/-- C6: under `StatsOnly` the result does not depend on the news provider
(any two news providers give the same result, so no news request is
observable); on stats success the result is the stats with `news_result`
a successful empty list, and a stats error propagates as the whole call's
failure. -/
theorem statsOnly_no_news_dependence
    (sp : String → Except StatbookError PlayerStats)
    (np np2 : NewsQuery → Except StatbookError (List Article))
    (name : String) :
    (get_player_summary ⟨sp, np⟩ name .StatsOnly
      = get_player_summary ⟨sp, np2⟩ name .StatsOnly)
  ∧ (∀ stats, sp (to_dash_case name) = .ok stats →
      get_player_summary ⟨sp, np⟩ name .StatsOnly
        = .ok { player_stats := stats, news_result := .ok [] })
  ∧ (∀ e, sp (to_dash_case name) = .error e →
      get_player_summary ⟨sp, np⟩ name .StatsOnly = .error e) := by
  refine ⟨?_, ?_, ?_⟩
  · simp only [get_player_summary]
  · intro stats hs
    simp only [get_player_summary, hs]
  · intro e hs
    simp only [get_player_summary, hs]

/-- C6 witness: two observably different news providers, same result;
plus the success and failure shapes at concrete providers. -/
theorem statsOnly_no_news_dependence_witness :
    (get_player_summary
      ⟨fun _ => .ok joshStats, fun _ => .error (.NewsApi 500 "down")⟩
      "Josh Allen" .StatsOnly
      = get_player_summary
      ⟨fun _ => .ok joshStats, fun _ => .ok [sampleArticle]⟩
      "Josh Allen" .StatsOnly)
  ∧ (get_player_summary
      ⟨fun _ => .ok joshStats, fun _ => .error (.NewsApi 500 "down")⟩
      "Josh Allen" .StatsOnly
      = .ok { player_stats := joshStats, news_result := .ok [] })
  ∧ (get_player_summary
      ⟨fun n => .error (.PlayerNotFound n), fun _ => .ok []⟩
      "Josh Allen" .StatsOnly
      = .error (.PlayerNotFound "josh-allen")) :=
  ⟨(statsOnly_no_news_dependence _ _ _ "Josh Allen").1,
   (statsOnly_no_news_dependence _ (fun _ => .error (.NewsApi 500 "down"))
      (fun _ => .ok []) "Josh Allen").2.1 _ rfl,
   (statsOnly_no_news_dependence _ (fun _ => .ok []) (fun _ => .ok [])
      "Josh Allen").2.2 _ rfl⟩

/-- Helper: on a non-empty decoded player list the decoder returns some
record (the one built from the first entry). -/
theorem decode_cons (name : String) (resp : PlayerResponse)
    (p : Player) (ps : List Player) (hp : resp.players = p :: ps) :
    ∃ stats, fetch_player_stats_decode name resp = .ok stats := by
  simp only [fetch_player_stats_decode, hp, List.head?]
  exact ⟨_, rfl⟩

/-- C4: a payload whose player list is non-empty but whose first entry has
every optional leaf absent decodes to the all-zero `PlayerStats` (empty
strings, 0 for `jersey_number` and `games_played`, `false` for `rookie`),
not a decode error. -/
theorem decode_all_absent_yields_zero
    (name : String) (resp : PlayerResponse) (p : Player) (rest : List Player)
    (hplayers : resp.players = p :: rest)
    (hinfo : p.player_info = PlayerInfo.empty)
    (hstats : p.statistics.games_played = none) :
    fetch_player_stats_decode name resp = .ok PlayerStats.zero := by
  simp [fetch_player_stats_decode, hplayers, hinfo, hstats,
    PlayerInfo.empty, PlayerStats.zero]

/-- C4 witness: the decoder at a one-entry payload with every leaf
absent. -/
theorem decode_all_absent_yields_zero_witness :
    fetch_player_stats_decode "josh-allen"
      { players := [{ player_info := PlayerInfo.empty
                      team_info := { id := none, abbreviation := none }
                      statistics := { games_played := none } }] }
      = .ok PlayerStats.zero :=
  decode_all_absent_yields_zero "josh-allen" _ _ [] rfl rfl rfl

/-- C5: an empty decoded player list yields `PlayerNotFound` carrying the
queried identifier; the decoder returns that error exactly when the list
is empty (and with exactly that identifier), and on a non-empty list it
returns some decoded record, never an error. -/
theorem decode_empty_list_playerNotFound
    (name m : String) (resp : PlayerResponse) :
    (resp.players = [] →
      fetch_player_stats_decode name resp = .error (.PlayerNotFound name))
  ∧ (fetch_player_stats_decode name resp = .error (.PlayerNotFound m) ↔
      resp.players = [] ∧ m = name)
  ∧ (resp.players ≠ [] →
      ∃ stats, fetch_player_stats_decode name resp = .ok stats) := by
  refine ⟨?_, ⟨?_, ?_⟩, ?_⟩
  · intro h
    simp [fetch_player_stats_decode, h]
  · intro h
    cases hp : resp.players with
    | nil =>
      have heq : fetch_player_stats_decode name resp
          = .error (.PlayerNotFound name) := by
        simp [fetch_player_stats_decode, hp]
      have h2 : (Except.error (StatbookError.PlayerNotFound name)
            : Except StatbookError PlayerStats)
          = .error (.PlayerNotFound m) := heq.symm.trans h
      injection h2 with h3
      injection h3 with h4
      exact ⟨rfl, h4.symm⟩
    | cons p ps =>
      exfalso
      rcases decode_cons name resp p ps hp with ⟨stats, heq⟩
      rw [heq] at h
      exact Except.noConfusion h
  · rintro ⟨h1, rfl⟩
    simp [fetch_player_stats_decode, h1]
  · intro h
    cases hp : resp.players with
    | nil => exact absurd hp h
    | cons p ps => exact decode_cons name resp p ps hp

/-- C5 witness: the decoder at the empty payload and at a one-entry
payload. -/
theorem decode_empty_list_playerNotFound_witness :
    fetch_player_stats_decode "josh-allen" { players := [] }
      = .error (.PlayerNotFound "josh-allen")
  ∧ ∃ stats,
      fetch_player_stats_decode "josh-allen"
        { players := [{ player_info := PlayerInfo.empty
                        team_info := { id := none, abbreviation := none }
                        statistics := { games_played := none } }] }
        = .ok stats :=
  ⟨(decode_empty_list_playerNotFound "josh-allen" "josh-allen"
      { players := [] }).1 rfl,
   (decode_empty_list_playerNotFound "josh-allen" "josh-allen"
      { players := [{ player_info := PlayerInfo.empty
                      team_info := { id := none, abbreviation := none }
                      statistics := { games_played := none } }] }).2.2
      (by simp)⟩

/-- C8: building a configuration whose stats key or news key is empty
fails validation with an error; with two non-empty keys (of any length)
and base URLs beginning with `"http"` (the defaults do), `build` succeeds.
The model is pure, so the failure occurs during `build` itself, before
any network interaction is possible. -/
theorem build_validates_keys
    (sk nk : String) (u1 u2 : Option String) (nc : Option NewsConfig) :
    (sk = "" →
      StatbookConfigBuilder.build
        { stats_api_key := some sk, news_api_key := some nk,
          stats_base_url := u1, news_base_url := u2, news_config := nc }
        = .error (.Validation "Stats API key cannot be empty"))
  ∧ (sk ≠ "" → nk = "" →
      StatbookConfigBuilder.build
        { stats_api_key := some sk, news_api_key := some nk,
          stats_base_url := u1, news_base_url := u2, news_config := nc }
        = .error (.Validation "News API key cannot be empty"))
  ∧ (sk ≠ "" → nk ≠ "" →
      starts_with (u1.getD STATS_BASE_URL) "http" = true →
      starts_with (u2.getD NEWS_BASE_URL) "http" = true →
      StatbookConfigBuilder.build
        { stats_api_key := some sk, news_api_key := some nk,
          stats_base_url := u1, news_base_url := u2, news_config := nc }
        = .ok { stats_api_key := sk, news_api_key := nk,
                stats_base_url := u1.getD STATS_BASE_URL,
                news_base_url := u2.getD NEWS_BASE_URL,
                news_config := nc.getD NewsConfig.default }) := by
  refine ⟨?_, ?_, ?_⟩
  · intro hsk
    subst hsk
    simp [StatbookConfigBuilder.build, StatbookConfig.validate,
      StatbookConfig.validate_api_keys, String.isEmpty_iff]
  · intro hsk hnk
    subst hnk
    simp [StatbookConfigBuilder.build, StatbookConfig.validate,
      StatbookConfig.validate_api_keys, String.isEmpty_iff, hsk]
  · intro hsk hnk hu1 hu2
    simp [StatbookConfigBuilder.build, StatbookConfig.validate,
      StatbookConfig.validate_api_keys, StatbookConfig.validate_urls,
      String.isEmpty_iff, hsk, hnk, hu1, hu2]

/-- C8 witness: an empty stats key fails, an empty news key fails, and
two short non-empty keys with the default URLs succeed. -/
theorem build_validates_keys_witness :
    (StatbookConfigBuilder.build
      { stats_api_key := some "", news_api_key := some "any-key",
        stats_base_url := none, news_base_url := none, news_config := none }
      = .error (.Validation "Stats API key cannot be empty"))
  ∧ (StatbookConfigBuilder.build
      { stats_api_key := some "any-key", news_api_key := some "",
        stats_base_url := none, news_base_url := none, news_config := none }
      = .error (.Validation "News API key cannot be empty"))
  ∧ (StatbookConfigBuilder.build
      { stats_api_key := some "short", news_api_key := some "x",
        stats_base_url := none, news_base_url := none, news_config := none }
      = .ok { stats_api_key := "short", news_api_key := "x",
              stats_base_url := STATS_BASE_URL,
              news_base_url := NEWS_BASE_URL,
              news_config := NewsConfig.default }) :=
  ⟨(build_validates_keys "" "any-key" none none none).1 rfl,
   (build_validates_keys "any-key" "" none none none).2.1 (by decide) rfl,
   (build_validates_keys "short" "x" none none none).2.2
     (by decide) (by decide) (by decide) (by decide)⟩

/-- C10: `StatbookConfig::new` is a total constructor: for any two
strings, including empty ones, it returns the record with those keys, the
default base URLs and default news settings, and runs no validation — a
configuration with empty keys is constructible through it, and `validate`
would reject exactly that configuration. `from_env` and the builder's
`build`, by contrast, do invoke validation and reject an empty key. -/
theorem new_skips_validation :
    (∀ sk nk : String, StatbookConfig.new sk nk
      = { stats_api_key := sk, news_api_key := nk,
          stats_base_url := STATS_BASE_URL, news_base_url := NEWS_BASE_URL,
          news_config := NewsConfig.default })
  ∧ (StatbookConfig.new "" "").stats_api_key = ""
  ∧ (StatbookConfig.new "" "").news_api_key = ""
  ∧ StatbookConfig.validate (StatbookConfig.new "" "")
      = .error (.Validation "Stats API key cannot be empty")
  ∧ StatbookConfig.from_env
      (fun k => if k = "STATS_API_KEY" then some "" else some "x")
      = .error (.Validation "Stats API key cannot be empty")
  ∧ StatbookConfigBuilder.build
      { stats_api_key := some "", news_api_key := some "x",
        stats_base_url := none, news_base_url := none, news_config := none }
      = .error (.Validation "Stats API key cannot be empty") := by
  refine ⟨fun sk nk => rfl, rfl, rfl, by decide, by decide, by decide⟩

end Statbook
